import Mathlib

/-!
Verification of the spec of `alexeagleson/the-modern-web-stack` against a
shallow embedding of its source snippets.

The repository is a set of tutorial snippets: a React like-button script
(`src/react-and-jsx/script.jsx`), three webpack configuration objects,
a Prettier configuration plus an unformatted/formatted example program,
and small Babel/ESLint demonstration snippets.  Each section below embeds
one of those source artifacts as Lean definitions, translated directly
from the source text, and the theorems at the end settle the claims.
-/

namespace ReactJsx

/-- Actions a JSX event handler can perform.  The `persist` and
`networkRequest` constructors exist so that the absence of persistence and
networking in the component code is a checkable property rather than a
vacuous one; `script.jsx` never constructs them. -/
inductive Action where
  | setLiked (b : Bool)
  | persist
  | networkRequest
deriving DecidableEq, Repr

/-- The element shapes appearing in `script.jsx`: the `span` and `button`
returned by `LikeButton`, the wrapping `div` of `ManyButtons`, and a
`<LikeButton key={index} />` component instance. -/
inductive Element where
  | span (style : List (String × String)) (text : String)
  | button (style : List (String × String)) (className : String)
      (onClick : List Action) (text : String)
  | div (style : List (String × String)) (children : List Element)
  | likeButtonInst (key : Nat)

/-- `LikeButton` from `src/react-and-jsx/script.jsx`: its state is the single
boolean `liked` (`React.useState(false)`); when `liked` it returns the
`Liked! 👍` span, otherwise the `Click to like!` button whose `onClick`
calls `setLiked(true)`. -/
def LikeButton.render (liked : Bool) : Element :=
  if liked then
    .span [("width", "150px"), ("height", "25px")] "Liked! 👍"
  else
    .button [("width", "150px"), ("height", "25px")] "like-button"
      [.setLiked true] "Click to like!"

/-- The initial value passed to `React.useState` in `LikeButton`. -/
def LikeButton.initialState : Bool := false

/-- The `onClick` actions of an element (only the button has a handler). -/
def handlerActions : Element → List Action
  | .button _ _ onClick _ => onClick
  | _ => []

/-- Effect of one handler action on the `liked` state. -/
def applyAction (s : Bool) : Action → Bool
  | .setLiked b => b
  | _ => s

/-- Clicking the element currently rendered by `LikeButton`: run the
`onClick` actions of the rendered element (none when the span is shown). -/
def clickLikeButton (liked : Bool) : Bool :=
  (handlerActions (LikeButton.render liked)).foldl applyAction liked

/-- Text label of a rendered element. -/
def labelOf : Element → String
  | .span _ t => t
  | .button _ _ _ t => t
  | .div _ _ => ""
  | .likeButtonInst _ => ""

def isSpan : Element → Bool
  | .span _ _ => true
  | _ => false

def isButton : Element → Bool
  | .button _ _ _ _ => true
  | _ => false

def isDiv : Element → Bool
  | .div _ _ => true
  | _ => false

def isLikeButtonInst : Element → Bool
  | .likeButtonInst _ => true
  | _ => false

/-- `ManyButtons` from `src/react-and-jsx/script.jsx`:
`[...new Array(500)].map((_, index) => <LikeButton key={index} />)` wrapped
in a flex `div`. -/
def ManyButtons : Element :=
  .div [("display", "flex"), ("flexDirection", "row"), ("flexWrap", "wrap")]
    ((List.range 500).map fun index => .likeButtonInst index)

def childrenOf : Element → List Element
  | .div _ cs => cs
  | _ => []

def keyOf : Element → Nat
  | .likeButtonInst k => k
  | _ => 0

/-- The keys of the children of an element. -/
def keysOf (e : Element) : List Nat := (childrenOf e).map keyOf

/-- The application state of the 500-button page: each `LikeButton`
instance holds its own `liked` boolean, indexed by its position. -/
def AppState : Type := Nat → Bool

/-- All buttons start unliked (`React.useState(false)` in each instance). -/
def initialAppState : AppState := fun _ => LikeButton.initialState

/-- Clicking button `i` runs that instance's own handler on its own state;
no other instance's state is touched. -/
def clickApp (s : AppState) (i : Nat) : AppState :=
  fun j => if j = i then clickLikeButton (s j) else s j

/-- Top-level operations performed by `script.jsx` outside component
bodies.  `tryCatch` exists so the absence of error handling is checkable;
the script never constructs it. -/
inductive ScriptOp where
  | documentQuery (selector : String)
  | reactRender (root : Element) (target : Option Nat)
  | tryCatch

/-- The top level of `src/react-and-jsx/script.jsx`, parametrised by the
document (`querySelector` as a partial map from selector to node id):
`const domContainer = document.querySelector("#app");` followed by
`ReactDOM.render(<ManyButtons />, domContainer);`.  The query result is
passed to the render call unchanged, with no null check. -/
def scriptOps (querySelector : String → Option Nat) : List ScriptOp :=
  [ .documentQuery "#app",
    .reactRender ManyButtons (querySelector "#app") ]

def isQueryOp : ScriptOp → Bool
  | .documentQuery _ => true
  | _ => false

def isRenderOp : ScriptOp → Bool
  | .reactRender _ _ => true
  | _ => false

def isTryCatchOp : ScriptOp → Bool
  | .tryCatch => true
  | _ => false

/-- The mount targets of the render calls in a list of script operations. -/
def renderTargets (ops : List ScriptOp) : List (Option Nat) :=
  ops.filterMap fun op =>
    match op with
    | .reactRender _ target => some target
    | _ => none

end ReactJsx

namespace Webpack

/-- A value of the `entry` object: either a bare request string
(`shared: "lodash/join"`) or an import descriptor
(`{ import: "...", dependOn: "..." }`). -/
inductive EntryValue where
  | str (request : String)
  | desc (importPath : String) (dependOn : String)
deriving DecidableEq, Repr

/-- The `entry` field: a single request string or a keyed object. -/
inductive Entry where
  | single (request : String)
  | multi (entries : List (String × EntryValue))
deriving DecidableEq, Repr

/-- The `output` field: `filename`, `path: path.resolve(__dirname, ...)`
kept as the resolved segment, and the optional `clean` flag. -/
structure Output where
  filename : String
  pathSegment : String
  clean : Option Bool := none
deriving DecidableEq, Repr

/-- One `module.rules` entry.  `test` holds the source text of the
regular expression between the slashes; the remaining fields record the
other keys present on the rule in the source. -/
structure Rule where
  test : String
  exclude : Option String := none
  use : List String := []
  presets : List String := []
  assetType : Option String := none
deriving DecidableEq, Repr

/-- A plugin instance in the `plugins` array. -/
inductive Plugin where
  | htmlWebpackPlugin (filename template : String)
      (chunks : Option (List String))
  | bundleAnalyzerPlugin
deriving DecidableEq, Repr

/-- The `optimization` object; each field is present only when the source
configuration sets it. -/
structure Optimization where
  usedExports : Option Bool := none
  minimize : Option Bool := none
  nodeEnv : Option String := none
deriving DecidableEq, Repr

/-- A `module.exports` webpack configuration object.  `rules` is `none`
when the source file has no `module` section at all, and `optimization`
is `none` when the source file has no `optimization` section. -/
structure Config where
  mode : String
  entry : Entry
  output : Output
  plugins : List Plugin
  rules : Option (List Rule) := none
  optimization : Option Optimization := none
  devtool : Option String := none
deriving DecidableEq, Repr

/-- `src/webpack/the-basics/webpack.config.js`: single entry, `main.js`
output, one HtmlWebpackPlugin; no `module.rules`, no `optimization`. -/
def theBasicsConfig : Config :=
  { mode := "none"
    entry := .single "./src/script.js"
    output := { filename := "main.js", pathSegment := "dist" }
    plugins := [.htmlWebpackPlugin "index.html" "./src/index.html" none] }

/-- `src/webpack/loaders-optimizations/webpack.config.js`: three named
entries with `dependOn: "shared"`, `[name].js` output with `clean: true`,
two HtmlWebpackPlugin instances with explicit `chunks` plus the
BundleAnalyzerPlugin, css/image loader rules, and
`optimization: { usedExports: true, minimize: true }`. -/
def loadersOptimizationsConfig : Config :=
  { mode := "none"
    entry := .multi
      [ ("script", .desc "./src/script.js" "shared"),
        ("page2", .desc "./src/page2.js" "shared"),
        ("shared", .str "lodash/join") ]
    output := { filename := "[name].js", pathSegment := "dist",
                clean := some true }
    plugins :=
      [ .htmlWebpackPlugin "index.html" "./src/index.html"
          (some ["script", "shared"]),
        .htmlWebpackPlugin "page2/index.html" "./src/index.html"
          (some ["page2", "shared"]),
        .bundleAnalyzerPlugin ]
    rules := some
      [ { test := "\\.css$", use := ["style-loader", "css-loader"] },
        { test := "\\.(png|svg|jpg|jpeg|gif)$",
          assetType := some "asset/resource" } ]
    optimization := some { usedExports := some true, minimize := some true } }

/-- The devserver/React/TypeScript `webpack.config.js` (tutorial part with
unknown filename): TSX entry, `main.js` output with `clean: true`, one
HtmlWebpackPlugin, inline source maps, a babel-loader rule for
`/\.m?[jt]sx$/` with three presets, and
`optimization: { nodeEnv: 'development' }`. -/
def devServerConfig : Config :=
  { mode := "none"
    entry := .single "./src/script.tsx"
    output := { filename := "main.js", pathSegment := "dist",
                clean := some true }
    plugins := [.htmlWebpackPlugin "index.html" "./src/index.html" none]
    devtool := some "inline-source-map"
    rules := some
      [ { test := "\\.m?[jt]sx$",
          exclude := some "(node_modules|bower_components)",
          use := ["babel-loader"],
          presets := ["@babel/preset-env", "@babel/preset-react",
                      "@babel/preset-typescript"] } ]
    optimization := some { nodeEnv := some "development" } }

/-- Every module bundler configuration object in the repository. -/
def repoConfigs : List Config :=
  [theBasicsConfig, loadersOptimizationsConfig, devServerConfig]

/-- The end-of-name anchor character `$` (code point 36). -/
def endAnchor : Char := Char.ofNat 36

/-- A regex source that matches file names by extension: it starts with an
escaped dot and anchors at the end of the name. -/
def isFileExtensionRegex (test : String) : Bool :=
  decide (test.data.take 2 = ['\\', '.'])
    && decide (test.data.getLast? = some endAnchor)

/-- Whether a configuration has an `entry` field naming at least one
entry point. -/
def specifiesEntry (c : Config) : Bool :=
  match c.entry with
  | .single _ => true
  | .multi kv => !kv.isEmpty

/-- Whether a configuration has a `module.rules` section whose every rule
tests a file-extension regular expression. -/
def specifiesExtensionRules (c : Config) : Bool :=
  match c.rules with
  | some rs => !rs.isEmpty && rs.all fun r => isFileExtensionRegex r.test
  | none => false

/-- Whether a configuration has an `optimization` section. -/
def specifiesOptimization (c : Config) : Bool := c.optimization.isSome

/-- Claim C5 as stated: every configuration specifies entry point(s), an
output filename and path, loader rules keyed by file-extension regex, a
plugin list, and optimization flags. -/
def claimC5Holds : Bool :=
  repoConfigs.all fun c =>
    specifiesEntry c && !c.output.filename.isEmpty
      && !c.output.pathSegment.isEmpty && !c.plugins.isEmpty
      && specifiesExtensionRules c && specifiesOptimization c

/-- The keys of the `entry` object of a configuration. -/
def entryKeys (c : Config) : List String :=
  match c.entry with
  | .single _ => []
  | .multi kv => kv.map Prod.fst

/-- The `dependOn` values appearing in the `entry` object. -/
def dependOnValues (c : Config) : List String :=
  match c.entry with
  | .single _ => []
  | .multi kv => kv.filterMap fun p =>
      match p.snd with
      | .desc _ d => some d
      | .str _ => none

/-- The chunk names listed by the HtmlWebpackPlugin instances that pass an
explicit `chunks` array. -/
def pluginChunkNames (c : Config) : List String :=
  c.plugins.flatMap fun p =>
    match p with
    | .htmlWebpackPlugin _ _ (some cs) => cs
    | _ => []

end Webpack

namespace Prettier

/-- Lexical quote style of a string literal.  Prettier's rewrite changes
this; evaluation does not depend on it. -/
inductive QuoteStyle where
  | double
  | single
deriving DecidableEq, Repr

/-- Expressions appearing in the prettier tutorial's `script.js`. -/
inductive Expr where
  | strLit (q : QuoteStyle) (s : String)
  | boolLit (b : Bool)
  | numLit (n : Int)
  | arrayLit (elems : List Expr)

/-- Statements appearing in the prettier tutorial's `script.js`. -/
inductive Stmt where
  | consoleLog (e : Expr)
  | ifStmt (cond : Expr) (body : List Stmt)
  | constDecl (name : String) (e : Expr)

/-- Runtime values. -/
inductive Value where
  | str (s : String)
  | bool (b : Bool)
  | num (n : Int)
  | arr (vs : List Value)
deriving Repr

mutual
def evalExpr : Expr → Value
  | .strLit _ s => .str s
  | .boolLit b => .bool b
  | .numLit n => .num n
  | .arrayLit es => .arr (evalExprs es)

def evalExprs : List Expr → List Value
  | [] => []
  | e :: rest => evalExpr e :: evalExprs rest
end

def truthy : Value → Bool
  | .str s => !s.isEmpty
  | .bool b => b
  | .num n => n != 0
  | .arr _ => true

/-- What `console.log` prints for a value. -/
def display : Value → String
  | .str s => s
  | .bool b => if b then "true" else "false"
  | .num n => toString n
  | .arr _ => "[object]"

/-- Execution state: console output so far and the const bindings. -/
structure RunState where
  output : List String
  env : List (String × Value)

mutual
def execStmt (st : RunState) : Stmt → RunState
  | .consoleLog e =>
      { st with output := st.output ++ [display (evalExpr e)] }
  | .ifStmt cond body =>
      if truthy (evalExpr cond) then execStmts st body else st
  | .constDecl name e =>
      { st with env := st.env ++ [(name, evalExpr e)] }

def execStmts (st : RunState) : List Stmt → RunState
  | [] => st
  | s :: rest => execStmts (execStmt st s) rest
end

/-- Run a program from the empty state. -/
def runProgram (prog : List Stmt) : RunState :=
  execStmts { output := [], env := [] } prog

def lookupEnv (st : RunState) (name : String) : Option Value :=
  (st.env.find? fun p => p.fst == name).map Prod.snd

/-- The unformatted `script.js` of the prettier tutorial:
`console.log("hello world")`, a one-line
`if (true) { console.log('this always runs'); }`, and the ten-element
`exampleArray` literal split untidily over three lines. -/
def unformattedScript : List Stmt :=
  [ .consoleLog (.strLit .double "hello world"),
    .ifStmt (.boolLit true) [.consoleLog (.strLit .single "this always runs")],
    .constDecl "exampleArray"
      (.arrayLit ((List.range 10).map fun i => .numLit (Int.ofNat i + 1))) ]

/-- The formatted `script.js` shown as prettier's output: single quotes
throughout, the `if` body on its own line, the array on one line.  As an
abstract syntax tree it differs from the unformatted program only in the
quote style of the first string literal. -/
def formattedScript : List Stmt :=
  [ .consoleLog (.strLit .single "hello world"),
    .ifStmt (.boolLit true) [.consoleLog (.strLit .single "this always runs")],
    .constDecl "exampleArray"
      (.arrayLit ((List.range 10).map fun i => .numLit (Int.ofNat i + 1))) ]

/-- A JSON value in `.prettierrc.json`. -/
inductive JsonVal where
  | str (s : String)
  | num (n : Int)
  | bool (b : Bool)
deriving DecidableEq, Repr

/-- The `.prettierrc.json` of the prettier tutorial, key by key. -/
def prettierrc : List (String × JsonVal) :=
  [ ("trailingComma", .str "es5"),
    ("tabWidth", .num 2),
    ("semi", .bool true),
    ("singleQuote", .bool true) ]

/-- The `.prettierignore` of the prettier tutorial. -/
def prettierignore : List String := ["build", "*.css"]

/-- Whether the configuration file sets the named option. -/
def specifiesOption (key : String) : Bool :=
  prettierrc.any fun p => p.fst == key

/-- Claim C6 as stated: the configuration specifies quote style, trailing
commas, and line width (prettier's line-width option is `printWidth`), and
the ignore-file lists excluded paths. -/
def claimC6Holds : Bool :=
  specifiesOption "singleQuote" && specifiesOption "trailingComma"
    && specifiesOption "printWidth" && !prettierignore.isEmpty

end Prettier

namespace Snippets

/-- The kinds of operation performed by the JavaScript snippets authored
in the repository, in source order, at statement granularity.  The
constructors from `threadSpawn` on never occur in any snippet; they exist
so that the absence of concurrency, retry, backpressure and cancellation
logic is a checkable property of the embedded snippets rather than a
vacuous one. -/
inductive SnippetOp where
  | moduleImport
  | funcCall
  | domCreate
  | setInnerHTML
  | setImageSrc
  | setInnerText
  | registerClickHandler
  | dynamicImportThen
  | consoleLog
  | domAppendChild
  | domQuery
  | useStateInit
  | setState
  | reactRender
  | varDecl
  | classDecl
  | assign
  | throwStatement
  | threadSpawn
  | sharedMutableThreadState
  | retryLoop
  | backpressureWait
  | cancelOp
  | timerSchedule
  | promiseCreate
deriving DecidableEq, Repr

/-- A code snippet authored in the repository: its path (or the path the
tutorial tells the reader to create) and its operations in source order. -/
structure Snippet where
  name : String
  ops : List SnippetOp
deriving DecidableEq, Repr

open SnippetOp

/-- `src/react-and-jsx/script.jsx`: `LikeButton` initialises one
`useState`, registers an `onClick` handler that calls `setLiked(true)`;
the top level queries `#app` once and calls `ReactDOM.render` once. -/
def reactScript : Snippet :=
  { name := "react-and-jsx/script.jsx"
    ops := [useStateInit, registerClickHandler, setState, domQuery,
            reactRender] }

/-- `src/webpack/the-basics/src/script.js`: imports lodash `join`,
creates a div, sets its innerHTML, appends it to the body. -/
def theBasicsScript : Snippet :=
  { name := "webpack/the-basics/src/script.js"
    ops := [moduleImport, domCreate, setInnerHTML, funcCall,
            domAppendChild] }

/-- `src/webpack/loaders-optimizations/src/script.js`: four static
imports, `funcA()`, three component factories (div/img/button), a click
handler on the button that performs `import("./lazy-module").then(...)` —
a deferred dynamic import resolved asynchronously — and three
`appendChild` calls. -/
def loadersOptimizationsScript : Snippet :=
  { name := "webpack/loaders-optimizations/src/script.js"
    ops := [moduleImport, moduleImport, moduleImport, moduleImport,
            funcCall, domCreate, setInnerHTML, domCreate, setImageSrc,
            domCreate, setInnerText, registerClickHandler,
            dynamicImportThen, funcCall, consoleLog, domAppendChild,
            domAppendChild, domAppendChild] }

/-- The prettier tutorial's unformatted `script.js`. -/
def prettierUnformattedScript : Snippet :=
  { name := "prettier/script.js (unformatted)"
    ops := [consoleLog, consoleLog, varDecl] }

/-- The prettier tutorial's formatted `script.js`. -/
def prettierFormattedScript : Snippet :=
  { name := "prettier/script.js (formatted)"
    ops := [consoleLog, consoleLog, varDecl] }

/-- The babel tutorial's `script.js`: const/let declarations, an arrow
function, a class, `includes`, two `console.log` calls, and a logical-or
assignment. -/
def babelScript : Snippet :=
  { name := "babel/script.js"
    ops := [varDecl, varDecl, varDecl, classDecl, varDecl, consoleLog,
            assign, consoleLog] }

/-- The babel tutorial's transpiled output (`@babel/preset-env` target):
`_classCallCheck` helper, var declarations, the same two logs. -/
def babelTranspiledScript : Snippet :=
  { name := "babel/script-transpiled.js"
    ops := [varDecl, varDecl, varDecl, varDecl, varDecl, consoleLog,
            assign, consoleLog] }

/-- The linters tutorial's `script.js` (with intentional lint errors). -/
def lintersScript : Snippet :=
  { name := "linters/script.js"
    ops := [varDecl, varDecl, consoleLog, funcCall] }

/-- The linters tutorial's fixed `script.js`. -/
def lintersFixedScript : Snippet :=
  { name := "linters/script.js (fixed)"
    ops := [varDecl, consoleLog, funcCall] }

/-- The linters tutorial's one-line JSX component example. -/
def lintersJsxSnippet : Snippet :=
  { name := "linters/CoolComponent"
    ops := [varDecl] }

/-- `src/page2.js` from the loaders-optimizations tutorial: imports
lodash `join`, logs "loading page2.js", creates an `h1`, sets its
innerHTML, appends it to the body. -/
def page2Script : Snippet :=
  { name := "webpack/loaders-optimizations/src/page2.js"
    ops := [moduleImport, consoleLog, domCreate, setInnerHTML,
            domAppendChild] }

/-- `src/tree-shake.js` from the loaders-optimizations tutorial: two
exported const arrow functions, each of whose body is a `console.log`;
nothing runs at module load. -/
def treeShakeScript : Snippet :=
  { name := "webpack/loaders-optimizations/src/tree-shake.js"
    ops := [varDecl, consoleLog, varDecl, consoleLog] }

/-- `src/lazy-module.js` from the loaders-optimizations tutorial: a
top-level `console.log` that runs when the module is loaded, then the
`getBigData` const which is the default export. -/
def lazyModuleScript : Snippet :=
  { name := "webpack/loaders-optimizations/src/lazy-module.js"
    ops := [consoleLog, varDecl] }

/-- `src/script.js` from the devserver tutorial (final form): creates an
`h1`, sets its innerHTML to "Welcome", appends it to the body. -/
def devServerScript : Snippet :=
  { name := "webpack/devserver/src/script.js"
    ops := [domCreate, setInnerHTML, domAppendChild] }

/-- The devserver tutorial's intermediate `src/script.js` stage that
begins with `throw Error("Something happened!")` to demonstrate source
maps, followed by the same three statements. -/
def devServerThrowScript : Snippet :=
  { name := "webpack/devserver/src/script.js (throw demo)"
    ops := [throwStatement, domCreate, setInnerHTML, domAppendChild] }

/-- `src/script.jsx` from the devserver tutorial: imports ReactDOM,
declares the `Welcome` component, queries `#root` once, renders once. -/
def devServerScriptJsx : Snippet :=
  { name := "webpack/devserver/src/script.jsx"
    ops := [moduleImport, varDecl, domQuery, reactRender] }

/-- `script.tsx` from the devserver tutorial: the same program as
`script.jsx` plus the typed `const x: number = 5` declaration. -/
def devServerScriptTsx : Snippet :=
  { name := "webpack/devserver/src/script.tsx"
    ops := [moduleImport, varDecl, varDecl, domQuery, reactRender] }

/-- The prettier tutorial's standalone `// prettier-ignore` example: a
single const array declaration. -/
def prettierIgnoreExample : Snippet :=
  { name := "prettier/README prettier-ignore example"
    ops := [varDecl] }

/-- Every JavaScript program authored in the repository, one entry per
source file, each file's operations taken from its fullest form shown in
the tutorials (`script.jsx`, the two webpack demo scripts, `page2.js`,
`tree-shake.js`, `lazy-module.js`, the devserver tutorial's
`script.js`/`script.jsx`/`script.tsx`, the prettier example before and
after formatting plus its prettier-ignore example, the babel script and
its transpiled output, and the linters script before and after fixing).
Earlier tutorial stages of the same file show a subset of these
operations, except the devserver `script.js` stage that adds a `throw`
statement, which gets its own entry.  Declarative configuration objects
(the webpack configurations and the JSON configuration files) perform no
operations and are embedded in the `Webpack` and `Prettier`
namespaces. -/
def repoSnippets : List Snippet :=
  [ reactScript, theBasicsScript, loadersOptimizationsScript,
    page2Script, treeShakeScript, lazyModuleScript,
    devServerScript, devServerThrowScript, devServerScriptJsx,
    devServerScriptTsx,
    prettierUnformattedScript, prettierFormattedScript,
    prettierIgnoreExample, babelScript,
    babelTranspiledScript, lintersScript, lintersFixedScript,
    lintersJsxSnippet ]

/-- Operations that initiate an asynchronous or deferred computation. -/
def isAsyncInitiation : SnippetOp → Bool
  | dynamicImportThen => true
  | timerSchedule => true
  | promiseCreate => true
  | _ => false

/-- Operations introducing concurrent execution or shared mutable state
across threads or processes. -/
def isConcurrencyOp : SnippetOp → Bool
  | threadSpawn => true
  | sharedMutableThreadState => true
  | _ => false

def isRetryOp : SnippetOp → Bool
  | retryLoop => true
  | _ => false

def isBackpressureOp : SnippetOp → Bool
  | backpressureWait => true
  | _ => false

def isCancellationOp : SnippetOp → Bool
  | cancelOp => true
  | _ => false

/-- Claim C3 as stated: no snippet authored in the repository initiates
an asynchronous or deferred operation, and none contains concurrency,
retry, backpressure or cancellation logic. -/
def claimC3Holds : Bool :=
  repoSnippets.all fun s => s.ops.all fun op =>
    !isAsyncInitiation op && !isConcurrencyOp op && !isRetryOp op
      && !isBackpressureOp op && !isCancellationOp op

end Snippets

/-- C1: `LikeButton` renders exactly one of two fixed states from its one
boolean: `liked = false` yields the button labelled "Click to like!" with
the `like-button` class, `liked = true` yields the span labelled
"Liked! 👍"; the initial state is `false`, the only handler action is
`setLiked(true)` (clicking the button flips the boolean to true, the span
has no handler), and no handler performs persistence or networking. -/
theorem likeButton_two_fixed_states :
    ReactJsx.isButton (ReactJsx.LikeButton.render false) = true
    ∧ ReactJsx.labelOf (ReactJsx.LikeButton.render false) = "Click to like!"
    ∧ ReactJsx.isSpan (ReactJsx.LikeButton.render true) = true
    ∧ ReactJsx.labelOf (ReactJsx.LikeButton.render true) = "Liked! 👍"
    ∧ ReactJsx.LikeButton.initialState = false
    ∧ ReactJsx.handlerActions (ReactJsx.LikeButton.render false)
        = [ReactJsx.Action.setLiked true]
    ∧ ReactJsx.handlerActions (ReactJsx.LikeButton.render true) = []
    ∧ ReactJsx.clickLikeButton false = true
    ∧ (ReactJsx.handlerActions (ReactJsx.LikeButton.render false)
        ++ ReactJsx.handlerActions (ReactJsx.LikeButton.render true)).all
          (fun a => !(a == ReactJsx.Action.persist)
            && !(a == ReactJsx.Action.networkRequest)) = true := by
  refine ⟨rfl, rfl, rfl, rfl, rfl, rfl, rfl, rfl, ?_⟩
  decide

/-- C9: the `liked` state is monotone — once true it stays true under any
further sequence of clicks (the span has no handler), and for every state
the only setter action any rendered element carries is `setLiked(true)`,
so no code path ever sets `liked` back to false. -/
theorem likeButton_liked_monotone :
    (∀ clicks : List Unit,
        clicks.foldl (fun s _ => ReactJsx.clickLikeButton s) true = true)
    ∧ (∀ b : Bool,
        (ReactJsx.handlerActions (ReactJsx.LikeButton.render b)).all
          (fun a => a == ReactJsx.Action.setLiked true) = true) := by
  constructor
  · intro clicks
    induction clicks with
    | nil => rfl
    | cons c rest ih =>
        have h : ReactJsx.clickLikeButton true = true := rfl
        simpa [List.foldl_cons, h] using ih
  · decide

/-- C8: `ManyButtons` returns a single `div` wrapper whose children are
exactly 500 `LikeButton` instances keyed 0..499 in increasing order, and
clicking one button leaves every other button's `liked` state unchanged. -/
theorem manyButtons_structure :
    ReactJsx.isDiv ReactJsx.ManyButtons = true
    ∧ (ReactJsx.childrenOf ReactJsx.ManyButtons).length = 500
    ∧ (ReactJsx.childrenOf ReactJsx.ManyButtons).all
        ReactJsx.isLikeButtonInst = true
    ∧ ReactJsx.keysOf ReactJsx.ManyButtons = List.range 500
    ∧ (ReactJsx.keysOf ReactJsx.ManyButtons).Sorted (· < ·)
    ∧ (∀ (s : ReactJsx.AppState) (i j : Nat), j ≠ i →
        ReactJsx.clickApp s i j = s j) := by
  have hfun : (ReactJsx.keyOf ∘ fun index => ReactJsx.Element.likeButtonInst index)
      = id := funext fun i => rfl
  have hkeys : ReactJsx.keysOf ReactJsx.ManyButtons = List.range 500 := by
    simp only [ReactJsx.keysOf, ReactJsx.childrenOf, ReactJsx.ManyButtons,
      List.map_map]
    rw [hfun, List.map_id]
  refine ⟨rfl, ?_, ?_, hkeys, ?_, ?_⟩
  · simp [ReactJsx.childrenOf, ReactJsx.ManyButtons]
  · simp [ReactJsx.childrenOf, ReactJsx.ManyButtons, List.all_eq_true,
      ReactJsx.isLikeButtonInst]
  · rw [hkeys]
    exact List.sorted_lt_range 500
  · intro s i j h
    simp [ReactJsx.clickApp, h]

/-- Closed instance of `manyButtons_structure`: clicking button 0 leaves
button 1's state unchanged. -/
theorem manyButtons_structure_witness :
    ReactJsx.clickApp ReactJsx.initialAppState 0 1
      = ReactJsx.initialAppState 1 :=
  manyButtons_structure.2.2.2.2.2 ReactJsx.initialAppState 0 1 (by decide)

/-- C4: for every document, the top level of `script.jsx` performs exactly
one DOM query and exactly one render call, the query performed is exactly
`document.querySelector("#app")`, and the render mounts `ManyButtons`. -/
theorem script_single_query_single_render :
    ∀ querySelector : String → Option Nat,
      (ReactJsx.scriptOps querySelector).countP ReactJsx.isQueryOp = 1
      ∧ (ReactJsx.scriptOps querySelector).countP ReactJsx.isRenderOp = 1
      ∧ (ReactJsx.scriptOps querySelector).filter ReactJsx.isQueryOp
          = [ReactJsx.ScriptOp.documentQuery "#app"] := by
  intro querySelector
  exact ⟨rfl, rfl, rfl⟩

/-- C7: the script passes the result of its single document query to the
render call unchanged — for every document the mount target is exactly
`querySelector("#app")`, so when the node is missing the render call still
receives the null result (no null check, no try/catch anywhere in the
script): the error is left to the external rendering library. -/
theorem script_no_null_check :
    ∀ querySelector : String → Option Nat,
      ReactJsx.renderTargets (ReactJsx.scriptOps querySelector)
          = [querySelector "#app"]
      ∧ (ReactJsx.scriptOps querySelector).countP ReactJsx.isTryCatchOp = 0
      ∧ ReactJsx.renderTargets (ReactJsx.scriptOps fun _ => none)
          = [none] := by
  intro querySelector
  exact ⟨rfl, rfl, rfl⟩

/-- C2: the unformatted and formatted `script.js` of the prettier
tutorial are behaviorally equivalent — running either produces the same
final state, whose console output is "hello world" then
"this always runs" and whose `exampleArray` binding is the array
[1,2,3,4,5,6,7,8,9,10]. -/
theorem prettier_format_preserves_behavior :
    Prettier.runProgram Prettier.unformattedScript
        = Prettier.runProgram Prettier.formattedScript
    ∧ (Prettier.runProgram Prettier.unformattedScript).output
        = ["hello world", "this always runs"]
    ∧ Prettier.lookupEnv (Prettier.runProgram Prettier.unformattedScript)
          "exampleArray"
        = some (Prettier.Value.arr
            [.num 1, .num 2, .num 3, .num 4, .num 5,
             .num 6, .num 7, .num 8, .num 9, .num 10]) := by
  refine ⟨rfl, rfl, ?_⟩
  rfl

/-- C3 counterexample: the claim "no snippet initiates an asynchronous or
deferred operation" is false — the button click handler in
`src/webpack/loaders-optimizations/src/script.js` performs
`import("./lazy-module").then(...)`, an asynchronous dynamic import. -/
theorem snippets_async_counterexample :
    Snippets.claimC3Holds = false
    ∧ Snippets.SnippetOp.dynamicImportThen
        ∈ Snippets.loadersOptimizationsScript.ops
    ∧ Snippets.isAsyncInitiation Snippets.SnippetOp.dynamicImportThen
        = true := by
  refine ⟨?_, ?_, rfl⟩ <;> decide

/-- C3 amended: no snippet in the repository contains concurrent
execution, shared mutable state across threads or processes, retry or
backpressure logic, or cancellation semantics; and every snippet is
synchronous except `webpack/loaders-optimizations/src/script.js`, whose
button click handler initiates a deferred dynamic import. -/
theorem snippets_sync_except_lazy_import :
    Snippets.repoSnippets.all (fun s => s.ops.all fun op =>
      !Snippets.isConcurrencyOp op && !Snippets.isRetryOp op
        && !Snippets.isBackpressureOp op && !Snippets.isCancellationOp op
        && (!Snippets.isAsyncInitiation op
             || s.name == "webpack/loaders-optimizations/src/script.js"))
      = true := by
  decide

/-- C5 counterexample: the claim "every bundler configuration specifies
loader rules and optimization flags" is false —
`src/webpack/the-basics/webpack.config.js` has no `module.rules` section
and no `optimization` section at all. -/
theorem webpack_config_claim_counterexample :
    Webpack.claimC5Holds = false
    ∧ Webpack.theBasicsConfig.rules = none
    ∧ Webpack.theBasicsConfig.optimization = none := by
  refine ⟨?_, rfl, rfl⟩
  decide

/-- C5 amended: every bundler configuration in the repository specifies
entry point(s), a non-empty output filename and path, and a non-empty
plugin list; the loaders-optimizations and devserver configurations
additionally specify loader rules whose every `test` is a file-extension
regular expression and an `optimization` section, while the the-basics
configuration specifies neither loader rules nor optimization. -/
theorem webpack_configs_amended :
    Webpack.repoConfigs.all (fun c =>
      Webpack.specifiesEntry c && !c.output.filename.isEmpty
        && !c.output.pathSegment.isEmpty && !c.plugins.isEmpty) = true
    ∧ Webpack.specifiesExtensionRules Webpack.loadersOptimizationsConfig
        = true
    ∧ Webpack.specifiesOptimization Webpack.loadersOptimizationsConfig
        = true
    ∧ Webpack.specifiesExtensionRules Webpack.devServerConfig = true
    ∧ Webpack.specifiesOptimization Webpack.devServerConfig = true
    ∧ Webpack.theBasicsConfig.rules = none
    ∧ Webpack.theBasicsConfig.optimization = none := by
  refine ⟨?_, ?_, rfl, ?_, rfl, rfl, rfl⟩ <;> decide

/-- C10: in the multi-entry configuration every `dependOn` value names a
defined entry key and every chunk name passed to the two HtmlWebpackPlugin
instances is a defined entry key; concretely the keys are
script/page2/shared, both `dependOn` values are "shared", and the chunk
lists are ["script","shared"] and ["page2","shared"]. -/
theorem multi_entry_names_resolve :
    (Webpack.dependOnValues Webpack.loadersOptimizationsConfig).all
        (fun d =>
          (Webpack.entryKeys Webpack.loadersOptimizationsConfig).contains d)
      = true
    ∧ (Webpack.pluginChunkNames Webpack.loadersOptimizationsConfig).all
        (fun ch =>
          (Webpack.entryKeys Webpack.loadersOptimizationsConfig).contains ch)
      = true
    ∧ Webpack.entryKeys Webpack.loadersOptimizationsConfig
        = ["script", "page2", "shared"]
    ∧ Webpack.dependOnValues Webpack.loadersOptimizationsConfig
        = ["shared", "shared"]
    ∧ Webpack.pluginChunkNames Webpack.loadersOptimizationsConfig
        = ["script", "shared", "page2", "shared"] := by
  refine ⟨?_, ?_, rfl, rfl, rfl⟩ <;> decide

/-- C6 counterexample: the claim that `.prettierrc.json` specifies a line
width is false — prettier's line-width option is `printWidth`, and the
configuration file sets only `trailingComma`, `tabWidth`, `semi` and
`singleQuote`. -/
theorem prettierrc_line_width_counterexample :
    Prettier.specifiesOption "printWidth" = false
    ∧ Prettier.claimC6Holds = false
    ∧ (Prettier.prettierrc.map Prod.fst)
        = ["trailingComma", "tabWidth", "semi", "singleQuote"] := by
  refine ⟨?_, ?_, rfl⟩ <;> decide

/-- C6 amended: `.prettierrc.json` specifies quote style (`singleQuote`),
trailing commas (`trailingComma`), tab width (`tabWidth`) and semicolons
(`semi`) — but no line width — and the separate `.prettierignore` lists
the excluded paths, namely the `build` directory and all CSS files. -/
theorem prettierrc_amended :
    Prettier.specifiesOption "singleQuote" = true
    ∧ Prettier.specifiesOption "trailingComma" = true
    ∧ Prettier.specifiesOption "tabWidth" = true
    ∧ Prettier.specifiesOption "semi" = true
    ∧ Prettier.specifiesOption "printWidth" = false
    ∧ Prettier.prettierignore = ["build", "*.css"] := by
  refine ⟨?_, ?_, ?_, ?_, ?_, rfl⟩ <;> decide
